import Mathlib

/-!
Shallow embedding of the chat connection core of libsignal:
the server-event translator (`rust/net/src/chat/server_requests.rs`),
the registration request codec (`rust/net/chat/src/ws/registration/request.rs`),
and the bridge-side lifecycle gate and acknowledgement handle
(`rust/bridge/shared/types/src/net/chat.rs`).

Machine integers are modelled as `Nat` with explicit bounds where overflow
matters; byte strings as `List Nat`; fallible code returns `Except`/`Option`.
-/

set_option maxRecDepth 4000

/-- Byte strings are lists of byte values. -/
abbrev Bytes := List Nat

/-- ASCII lowercasing of a character, as Rust's `u8::to_ascii_lowercase`. -/
def asciiLower (c : Char) : Char :=
  if 'A' ≤ c ∧ c ≤ 'Z' then Char.ofNat (c.toNat + 32) else c

/-- Rust's `str::eq_ignore_ascii_case`: equality after ASCII lowercasing. -/
def eqIgnoreAsciiCase (a b : String) : Bool :=
  a.data.map asciiLower == b.data.map asciiLower

/-- Helper for `splitOnce`: split a character list at the first occurrence of
`sep`, dropping the separator, as Rust's `str::split_once`. -/
def splitOnceAux (sep : Char) : List Char → Option (List Char × List Char)
  | [] => none
  | c :: rest =>
    if c == sep then some ([], rest)
    else (splitOnceAux sep rest).map fun p => (c :: p.1, p.2)

/-- Rust's `str::split_once`: the parts before and after the first occurrence
of `sep`, or `none` when `sep` does not occur. -/
def splitOnce (s : String) (sep : Char) : Option (String × String) :=
  (splitOnceAux sep s.data).map fun p => (⟨p.1⟩, ⟨p.2⟩)

/-- Value of a decimal digit string (most significant first). -/
def digitsToNat (cs : List Char) : Nat :=
  cs.foldl (fun acc c => acc * 10 + (c.toNat - '0'.toNat)) 0

/-- Rust's `str::trim`: whitespace removed from both ends. -/
def rustTrim (s : String) : String :=
  ⟨((s.data.dropWhile Char.isWhitespace).reverse.dropWhile Char.isWhitespace).reverse⟩

/-- Rust's `str::parse::<u64>()`: an optional leading `+`, then one or more
ASCII digits, and the value must fit in 64 bits; anything else fails. -/
def parseU64 (s : String) : Option Nat :=
  let cs := match s.data with
    | '+' :: rest => rest
    | cs => cs
  if cs ≠ [] ∧ cs.all Char.isDigit ∧ digitsToNat cs < 2 ^ 64 then
    some (digitsToNat cs)
  else none

/-- Modelled from the spec: the fixed timestamp header name carried by
incoming messages (`TIMESTAMP_HEADER_NAME` lives in the `env` module, which is
not among the sources; scenario S6 shows the name `x-signal-timestamp`). -/
def TIMESTAMP_HEADER_NAME : String := "x-signal-timestamp"

/-- The typed server events produced by the translator, from `ServerEvent` in
`server_requests.rs`. The acknowledgement closure type is abstracted as `A`. -/
inductive ServerEvent (A : Type) where
  | QueueEmpty
  | IncomingMessage (request_id : Nat) (envelope : Bytes)
      (server_delivery_timestamp : Nat) (send_ack : A)
  | Alerts (alerts : List String)
  | Stopped (cause : String)
  deriving DecidableEq

/-- Translation errors, from `ServerEventError` in `server_requests.rs`. -/
inductive ServerEventError where
  | UnexpectedVerb (verb : String)
  | MissingPath
  | UnrecognizedPath (path : String)
  deriving DecidableEq

/-- A raw server-request frame, from the `WebSocketRequestMessage` proto
(`RequestProto`): all fields optional, headers a list of `"name: value"`
strings. -/
structure RequestProto where
  verb : Option String
  path : Option String
  body : Option Bytes
  headers : List String
  id : Option Nat

/-- One step of the header scan in `convert_received_message`: split the
header at the first colon; if the name matches the timestamp header name
ASCII-case-insensitively, parse the trimmed value as `u64`. -/
def timestampFromHeader (header : String) : Option Nat :=
  match splitOnce header ':' with
  | none => none
  | some (name, value) =>
    if eqIgnoreAsciiCase name TIMESTAMP_HEADER_NAME then
      parseU64 (rustTrim value)
    else none

/-- The `raw_timestamp` computation in `convert_received_message`:
`headers.iter().filter_map(...).next_back()`, i.e. the last header that both
matches the timestamp header name and parses as `u64`. -/
def rawTimestamp (headers : List String) : Option Nat :=
  (headers.filterMap timestampFromHeader).getLast?

/-- `convert_received_message` from `server_requests.rs`, with the
acknowledgement closure constructor abstracted as `make_send_ack`. -/
def convert_received_message {A : Type} (proto : RequestProto)
    (make_send_ack : Unit → A) : Except ServerEventError (ServerEvent A) :=
  let verb := proto.verb.getD ""
  if verb ≠ "PUT" then
    .error (.UnexpectedVerb verb)
  else
    let path := proto.path.getD ""
    if path = "/api/v1/queue/empty" then
      .ok .QueueEmpty
    else if path = "/api/v1/message" then
      let raw_timestamp := rawTimestamp proto.headers
      .ok (.IncomingMessage (proto.id.getD 0) (proto.body.getD [])
        (raw_timestamp.getD 0) (make_send_ack ()))
    else if path = "" then
      .error .MissingPath
    else
      .error (.UnrecognizedPath path)

/-- Whether `convert_received_message` emits the missing-timestamp warning
log: it does so exactly on the `/api/v1/message` branch when no header both
matches the timestamp header name and parses. -/
def convert_warns (proto : RequestProto) : Bool :=
  proto.verb.getD "" == "PUT" &&
  proto.path.getD "" == "/api/v1/message" &&
  (rawTimestamp proto.headers).isNone

/-- The timestamp selection as the spec words it: take the last header whose
name (before the first colon) matches the timestamp header name
case-insensitively, then parse that one header's value; absent or unparseable
defaults to 0. (Second definition, following the spec's words, for comparison
with `rawTimestamp` which follows the source.) -/
def specLastMatchingTimestamp (headers : List String) : Nat :=
  let matching := headers.filter fun h =>
    match splitOnce h ':' with
    | some (name, _) => eqIgnoreAsciiCase name TIMESTAMP_HEADER_NAME
    | none => false
  match matching.getLast? with
  | none => 0
  | some h =>
    match splitOnce h ':' with
    | none => 0
    | some (_, value) => (parseU64 (rustTrim value)).getD 0

/-- The amended timestamp semantics: scanning from the last header backwards,
the first header that both matches the timestamp header name and parses as
`u64` wins; if none does, 0. -/
def lastMatchingParseableTimestamp (headers : List String) : Nat :=
  (headers.reverse.findSome? timestampFromHeader).getD 0

/-! ## Registration request codec (`ws/registration/request.rs`) -/

/-- A JSON value; objects are ordered field lists, as produced by serde. -/
inductive Json where
  | null
  | bool (b : Bool)
  | num (n : Nat)
  | str (s : String)
  | arr (elements : List Json)
  | obj (fields : List (String × Json))

/-- Look up a key in a JSON object (first occurrence); `none` on non-objects. -/
def Json.lookup : Json → String → Option Json
  | .obj fields, key => (fields.find? fun f => f.1 == key).map (·.2)
  | _, _ => none

/-- The standard base64 alphabet. -/
def base64Alphabet : List Char :=
  "ABCDEFGHIJKLMNOPQRSTUVWXYZabcdefghijklmnopqrstuvwxyz0123456789+/".data

/-- The base64 digit for a 6-bit value. -/
def base64Char (n : Nat) : Char := base64Alphabet.getD n 'A'

/-- Standard padded base64 encoding of a byte string
(`serde_with::base64::Base64<Standard, Padded>`). -/
def base64Padded : Bytes → String
  | [] => ""
  | [b1] => ⟨[base64Char (b1 / 4), base64Char (b1 % 4 * 16), '=', '=']⟩
  | [b1, b2] =>
    ⟨[base64Char (b1 / 4), base64Char (b1 % 4 * 16 + b2 / 16),
      base64Char (b2 % 16 * 4), '=']⟩
  | b1 :: b2 :: b3 :: rest =>
    (⟨[base64Char (b1 / 4), base64Char (b1 % 4 * 16 + b2 / 16),
       base64Char (b2 % 16 * 4 + b3 / 64), base64Char (b3 % 64)]⟩ : String)
      ++ base64Padded rest

/-- The bytes of an ASCII string, for base64-encoding auth credentials. -/
def strBytes (s : String) : Bytes := s.data.map Char.toNat

/-- A wire chat request (`libsignal_net::chat::Request`): method, path,
header list, optional JSON body (bodies in this codec are always JSON). -/
structure ChatRequest where
  method : String
  path : String
  headers : List (String × String)
  body : Option Json

/-- Modelled from the spec: the `CONTENT_TYPE_JSON` header constant of the
`ws::registration` module (not among the sources): the literal
`content-type: application/json`. -/
def CONTENT_TYPE_JSON : String × String := ("content-type", "application/json")

/-- A header multimap as the `http` crate presents it: ordered entries with
ASCII-case-insensitive names. -/
structure HeaderMap where
  entries : List (String × String)
  deriving DecidableEq

/-- `http::HeaderMap::get`: the first value whose name matches
ASCII-case-insensitively. -/
def HeaderMap.get (m : HeaderMap) (name : String) : Option String :=
  ((m.entries.filter fun e => eqIgnoreAsciiCase e.1 name).head?).map (·.2)

/-- A wire chat response (`libsignal_net::chat::Response`). -/
structure ChatResponse where
  status : Nat
  message : Option String
  body : Option Bytes
  headers : HeaderMap

/-- `http::StatusCode::is_success`: a 2xx status. -/
def isSuccessStatus (status : Nat) : Prop := 200 ≤ status ∧ status ≤ 299

instance (status : Nat) : Decidable (isSuccessStatus status) := by
  unfold isSuccessStatus; infer_instance

/-- serde_json's error categories (`serde_json::error::Category`). -/
inductive JsonErrorCategory where
  | Io
  | Syntax
  | Data
  | Eof
  deriving DecidableEq

/-- Registration response decoding errors, from `ResponseError` in
`request.rs`. The retry-after delay is an abstract duration in seconds. -/
inductive ResponseError where
  | RetryLater (retry_after_seconds : Nat)
  | InvalidRequest
  | UnexpectedContentType (content_type : Option String)
  | UnrecognizedStatus (status : Nat) (response_headers : HeaderMap)
      (response_body : Option Bytes)
  | MissingBody
  | InvalidJson
  | UnexpectedData
  deriving DecidableEq

/-- `try_into_response` from `request.rs`, parametrized by the external
helpers it calls: `extract_retry_later` (from `libsignal_net::infra`) and
serde_json's deserializer for the target type `R` (which fails with an error
category). -/
def try_into_response {R : Type}
    (extract_retry_later : HeaderMap → Option Nat)
    (parse_json : Bytes → Except JsonErrorCategory R)
    (resp : ChatResponse) : Except ResponseError R :=
  if ¬ isSuccessStatus resp.status then
    if resp.status = 429 then
      match extract_retry_later resp.headers with
      | some delay => .error (.RetryLater delay)
      | none =>
        if resp.status = 422 then .error .InvalidRequest
        else .error (.UnrecognizedStatus resp.status resp.headers resp.body)
    else if resp.status = 422 then .error .InvalidRequest
    else .error (.UnrecognizedStatus resp.status resp.headers resp.body)
  else
    let content_type := resp.headers.get "content-type"
    if content_type ≠ some "application/json" then
      .error (.UnexpectedContentType content_type)
    else
      match resp.body with
      | none => .error .MissingBody
      | some body =>
        match parse_json body with
        | .ok value => .ok value
        | .error .Data => .error .UnexpectedData
        | .error .Syntax => .error .InvalidJson
        | .error .Io => .error .InvalidJson
        | .error .Eof => .error .InvalidJson

/-- Modelled from the spec: `PushTokenType` (defined in `api::registration`,
not among the sources), serialized in camelCase as its variant name. -/
inductive PushTokenType where
  | apn
  | fcm
  deriving DecidableEq

/-- The camelCase serde rendering of a `PushTokenType` variant. -/
def PushTokenType.render : PushTokenType → String
  | .apn => "apn"
  | .fcm => "fcm"

/-- Modelled from the spec: `VerificationTransport` (defined in
`api::registration`, not among the sources); scenario S3 shows `sms`
serialized as the string `"sms"`. -/
inductive VerificationTransport where
  | sms
  | voice
  deriving DecidableEq

/-- The serde rendering of a `VerificationTransport` variant. -/
def VerificationTransport.render : VerificationTransport → String
  | .sms => "sms"
  | .voice => "voice"

/-- `UpdateRegistrationSession` from `request.rs`: all fields optional,
serialized camelCase with absent fields omitted (`skip_serializing_none`). -/
structure UpdateRegistrationSession where
  captcha : Option String
  push_token : Option String
  push_token_type : Option PushTokenType
  push_challenge : Option String

/-- A field that is omitted from the serialized object when absent
(`skip_serializing_none`). -/
def optField (name : String) (v : Option Json) : List (String × Json) :=
  match v with
  | some j => [(name, j)]
  | none => []

/-- The serde serialization of `UpdateRegistrationSession`. -/
def UpdateRegistrationSession.toJson (u : UpdateRegistrationSession) : Json :=
  .obj (optField "captcha" (u.captcha.map .str) ++
        optField "pushToken" (u.push_token.map .str) ++
        optField "pushTokenType" (u.push_token_type.map fun t => .str t.render) ++
        optField "pushChallenge" (u.push_challenge.map .str))

/-- `RequestVerificationCode` from `request.rs`; the language list is a
header, skipped during body serialization (`#[serde(skip)]`). -/
structure RequestVerificationCode where
  transport : VerificationTransport
  client : String
  language_list : Option String

/-- `SubmitVerificationCode` from `request.rs`. -/
structure SubmitVerificationCode where
  code : String

/-- The data of one `Request` trait implementation from `request.rs`, for a
concrete operation value: method, path (as a function of the session id's URL
path segment), own headers, and optional JSON body. -/
structure RequestTraitImpl where
  METHOD : String
  request_path : String → String
  headers : List (String × String)
  to_json_body : Option Json

/-- The `Request` impl for `GetSession`: `GET`, the session path, no headers,
no body. -/
def GetSession.requestImpl : RequestTraitImpl where
  METHOD := "GET"
  request_path := fun session_id => "/v1/verification/session/" ++ session_id
  headers := []
  to_json_body := none

/-- The `Request` impl for `UpdateRegistrationSession`: `PATCH`, the session
path, no headers, serialized body. -/
def UpdateRegistrationSession.requestImpl (u : UpdateRegistrationSession) :
    RequestTraitImpl where
  METHOD := "PATCH"
  request_path := fun session_id => "/v1/verification/session/" ++ session_id
  headers := []
  to_json_body := some u.toJson

/-- The `Request` impl for `RequestVerificationCode`: `POST`, the session
code path, an `accept-language` header when a language list is present,
serialized body (without the skipped language list). -/
def RequestVerificationCode.requestImpl (r : RequestVerificationCode) :
    RequestTraitImpl where
  METHOD := "POST"
  request_path := fun session_id =>
    "/v1/verification/session/" ++ session_id ++ "/code"
  headers :=
    match r.language_list with
    | some l => [("accept-language", l)]
    | none => []
  to_json_body := some (.obj
    [("transport", .str r.transport.render), ("client", .str r.client)])

/-- The `Request` impl for `SubmitVerificationCode`: `PUT`, the session code
path, no headers, serialized body. -/
def SubmitVerificationCode.requestImpl (s : SubmitVerificationCode) :
    RequestTraitImpl where
  METHOD := "PUT"
  request_path := fun session_id =>
    "/v1/verification/session/" ++ session_id ++ "/code"
  headers := []
  to_json_body := some (.obj [("code", .str s.code)])

/-- The fixed set of session-scoped registration operations that go through
`RegistrationRequest`. -/
inductive RegistrationOperation where
  | getSession
  | updateSession (u : UpdateRegistrationSession)
  | requestCode (r : RequestVerificationCode)
  | submitCode (s : SubmitVerificationCode)

/-- The `Request` impl data of a registration operation. -/
def RegistrationOperation.impl : RegistrationOperation → RequestTraitImpl
  | .getSession => GetSession.requestImpl
  | .updateSession u => u.requestImpl
  | .requestCode r => r.requestImpl
  | .submitCode s => s.requestImpl

/-- `From<RegistrationRequest<'s, R>> for ChatRequest` from `request.rs`: the
method and path come from the `Request` impl; headers are the operation's own
headers followed by `content-type: application/json` exactly when a JSON body
is present. -/
def registrationRequestToChatRequest (session_id : String)
    (r : RequestTraitImpl) : ChatRequest where
  method := r.METHOD
  path := r.request_path session_id
  headers := r.headers ++ (if r.to_json_body.isSome then [CONTENT_TYPE_JSON] else [])
  body := r.to_json_body

/-- Modelled from the spec: `ProvidedAccountAttributes` (defined in
`api::registration`, not among the sources), with the fields and JSON shapes
listed in the spec's RegisterAccount body description. -/
structure ProvidedAccountAttributes where
  recovery_password : Bytes
  registration_id : Nat
  pni_registration_id : Nat
  name : Option Bytes
  registration_lock : Option String
  unidentified_access_key : Bytes
  unrestricted_unidentified_access : Bool
  capabilities : List String
  discoverable_by_phone_number : Bool

/-- Modelled from the spec: the serde serialization of
`ProvidedAccountAttributes` (camelCase; `recoveryPassword` and `name`
base64-padded; `unidentifiedAccessKey` a JSON number array; `capabilities` an
object of name to `true`; absent optional fields omitted). -/
def ProvidedAccountAttributes.toJsonFields (a : ProvidedAccountAttributes) :
    List (String × Json) :=
  [("recoveryPassword", .str (base64Padded a.recovery_password)),
   ("registrationId", .num a.registration_id),
   ("pniRegistrationId", .num a.pni_registration_id)] ++
  optField "name" (a.name.map fun n => .str (base64Padded n)) ++
  optField "registrationLock" (a.registration_lock.map .str) ++
  [("unidentifiedAccessKey", .arr (a.unidentified_access_key.map .num)),
   ("unrestrictedUnidentifiedAccess", .bool a.unrestricted_unidentified_access),
   ("capabilities", .obj (a.capabilities.map fun c => (c, .bool true))),
   ("discoverableByPhoneNumber", .bool a.discoverable_by_phone_number)]

/-- `SignedPreKeyBody` (serialized camelCase with base64-padded key bytes, as
in the spec's RegisterAccount body description). -/
structure SignedPreKeyBody where
  key_id : Nat
  public_key : Bytes
  signature : Bytes

/-- The serde serialization of a `SignedPreKeyBody`. -/
def SignedPreKeyBody.toJson (k : SignedPreKeyBody) : Json :=
  .obj [("keyId", .num k.key_id),
        ("publicKey", .str (base64Padded k.public_key)),
        ("signature", .str (base64Padded k.signature))]

/-- `AccountKeys`: identity key (serialized public key bytes) and the two pre
key bodies for one service id. -/
structure AccountKeys where
  identity_key : Bytes
  signed_pre_key : SignedPreKeyBody
  pq_last_resort_pre_key : SignedPreKeyBody

/-- `ForServiceIds`: a value for each of the ACI and PNI service ids. -/
structure ForServiceIds (T : Type) where
  aci : T
  pni : T

/-- `NewMessageNotification`: how the registered account learns of new
messages. -/
inductive NewMessageNotification where
  | Apn (token : String)
  | Gcm (token : String)
  | WillFetchMessages

/-- `SessionValidation` from `request.rs`: exactly one of a session id or a
base64-padded recovery password, flattened into the root object. -/
inductive SessionValidation where
  | SessionId (id : String)
  | RecoveryPassword (password : Bytes)

/-- The single root field contributed by the flattened `SessionValidation`
(externally tagged camelCase enum serialization). -/
def SessionValidation.toJsonField : SessionValidation → String × Json
  | .SessionId id => ("sessionId", .str id)
  | .RecoveryPassword pw => ("recoveryPassword", .str (base64Padded pw))

/-- `register_account` from `request.rs` (the `RegisterChatRequest` impl for
`ChatRequest`): builds the `RegisterAccount` JSON body and the `POST
/v1/registration` request with content-type and basic-auth headers.
`device_transfer` is the `Option<SkipDeviceTransfer>` argument reduced to its
presence (`is_some_and(|SkipDeviceTransfer| true)`). -/
def register_account (number : String) (session_id : Option String)
    (message_notification : NewMessageNotification)
    (account_attributes : ProvidedAccountAttributes)
    (device_transfer : Bool)
    (keys : ForServiceIds AccountKeys)
    (account_password : String) : ChatRequest :=
  let fetches_and_push : Bool × Option (String × String) :=
    match message_notification with
    | .Apn apn => (false, some ("apnRegistrationId", apn))
    | .Gcm gcm => (false, some ("gcmRegistrationId", gcm))
    | .WillFetchMessages => (true, none)
  let fetches_messages := fetches_and_push.1
  let push_token := fetches_and_push.2
  let session_validation :=
    (session_id.map SessionValidation.SessionId).getD
      (SessionValidation.RecoveryPassword account_attributes.recovery_password)
  let body : Json := .obj (
    [session_validation.toJsonField,
     ("accountAttributes", .obj
       (("fetchesMessages", .bool fetches_messages) ::
        account_attributes.toJsonFields)),
     ("skipDeviceTransfer", .bool device_transfer),
     ("aciIdentityKey", .str (base64Padded keys.aci.identity_key)),
     ("pniIdentityKey", .str (base64Padded keys.pni.identity_key)),
     ("aciSignedPreKey", keys.aci.signed_pre_key.toJson),
     ("pniSignedPreKey", keys.pni.signed_pre_key.toJson),
     ("aciPqLastResortPreKey", keys.aci.pq_last_resort_pre_key.toJson),
     ("pniPqLastResortPreKey", keys.pni.pq_last_resort_pre_key.toJson)] ++
    optField "pushToken"
      (push_token.map fun p => .obj [(p.1, .str p.2)]))
  { method := "POST"
    headers := [CONTENT_TYPE_JSON,
      ("authorization",
        "Basic " ++ base64Padded (strBytes (number ++ ":" ++ account_password)))]
    path := "/v1/registration"
    body := some body }

/-- The root field of a request's JSON body under `key`, if any. -/
def ChatRequest.bodyField (r : ChatRequest) (key : String) : Option Json :=
  r.body.bind fun j => j.lookup key

/-- The field of the nested `accountAttributes` object under `key`, if any. -/
def ChatRequest.accountAttributesField (r : ChatRequest) (key : String) :
    Option Json :=
  (r.bodyField "accountAttributes").bind fun j => j.lookup key

/-! ## Bridge lifecycle gate and acknowledgement handle
(`bridge/shared/types/src/net/chat.rs`) -/

/-- `MaybeChatConnection` from the bridge: the lifecycle gate's cell, holding
a running connection (`C`), a pending connection awaiting its listener (with
a runtime handle `R` and pending transport `P`), or the transient eviction
placeholder. -/
inductive MaybeChatConnection (R C P : Type) where
  | Running (connection : C)
  | WaitingForListener (runtime : R) (pending : P)
  | TemporarilyEvicted

/-- Whether the gate currently holds a running connection. -/
def MaybeChatConnection.isRunning {R C P : Type} :
    MaybeChatConnection R C P → Bool
  | .Running _ => true
  | _ => false

/-- `init_listener` from the bridge: `mem::replace` the cell with
`TemporarilyEvicted`, then either finish construction (pending case) or put
the old value back and panic (running case). The result is the final cell
contents together with the panic message, if the call panicked. -/
def init_listener {R C P L : Type} (finish_connect : R → P → L → C)
    (connection : MaybeChatConnection R C P) (listener : L) :
    MaybeChatConnection R C P × Option String :=
  match connection with
  | .Running c => (.Running c, some "listener already set")
  | .WaitingForListener runtime pending =>
    (.Running (finish_connect runtime pending listener), none)
  | .TemporarilyEvicted => (.TemporarilyEvicted, some "should be a temporary state")

/-- The gate check at the head of `BridgeChatConnection::send`: the running
connection the send proceeds on, or the panic message when no listener was
attached. -/
def send_gate {R C P : Type} (connection : MaybeChatConnection R C P) :
    Except String C :=
  match connection with
  | .Running c => .ok c
  | .WaitingForListener _ _ => .error "listener was not set"
  | .TemporarilyEvicted => .error "listener was not set"

/-- `ServerMessageAck` from the bridge: a single-slot holder of the
send-response closure (`AtomicTake`), abstracted over the closure type `S`. -/
structure ServerMessageAck (S : Type) where
  inner : Option S

/-- `ServerMessageAck::new`: a full slot. -/
def ServerMessageAck.new {S : Type} (send_ack : S) : ServerMessageAck S :=
  ⟨some send_ack⟩

/-- `ServerMessageAck::take` (`AtomicTake::take`): return the slot's contents
and leave it empty. -/
def ServerMessageAck.take {S : Type} (a : ServerMessageAck S) :
    Option S × ServerMessageAck S :=
  (a.inner, ⟨none⟩)

/-- The result of the `n`-th (0-indexed) successive `take` call on a handle,
threading the state through the calls. -/
def ServerMessageAck.nthTake {S : Type} (a : ServerMessageAck S) :
    Nat → Option S
  | 0 => a.take.1
  | n + 1 => a.take.2.nthTake n

/-! ## Helper lemmas -/

/-- The head of a `filterMap` is the first successful application. -/
theorem head?_filterMap_eq_findSome? {α β : Type} (f : α → Option β)
    (l : List α) : (l.filterMap f).head? = l.findSome? f := by
  induction l with
  | nil => rfl
  | cons a t ih =>
    rw [List.filterMap_cons, List.findSome?_cons]
    cases h : f a
    · exact ih
    · rfl

/-- The source's `filter_map(...).next_back()` is the last successful
application: scanning the headers from the back, the first header that both
matches and parses wins. -/
theorem rawTimestamp_eq_reverse_findSome? (headers : List String) :
    rawTimestamp headers = headers.reverse.findSome? timestampFromHeader := by
  unfold rawTimestamp
  rw [List.getLast?_eq_head?_reverse, ← List.filterMap_reverse,
    head?_filterMap_eq_findSome?]

/-- An emptied acknowledgement slot yields nothing forever. -/
theorem nthTake_of_empty {S : Type} :
    ∀ n, (ServerMessageAck.mk (none : Option S)).nthTake n = none
  | 0 => rfl
  | n + 1 => nthTake_of_empty n

/-! ## Claim theorems -/

/-- Claim C1: translation of raw server-request frames routes exhaustively by
verb and path: non-`PUT` verbs yield `UnexpectedVerb(verb)` for any path; a
`PUT` to `/api/v1/queue/empty` yields `QueueEmpty`; a `PUT` to
`/api/v1/message` yields `IncomingMessage`; a `PUT` with an empty path yields
`MissingPath`; a `PUT` to any other path yields `UnrecognizedPath(path)`. -/
theorem convert_routes_exhaustively {A : Type} (proto : RequestProto)
    (mk : Unit → A) :
    (proto.verb.getD "" ≠ "PUT" →
      convert_received_message proto mk =
        .error (.UnexpectedVerb (proto.verb.getD ""))) ∧
    (proto.verb.getD "" = "PUT" →
      (proto.path.getD "" = "/api/v1/queue/empty" →
        convert_received_message proto mk = .ok .QueueEmpty) ∧
      (proto.path.getD "" = "/api/v1/message" →
        convert_received_message proto mk =
          .ok (.IncomingMessage (proto.id.getD 0) (proto.body.getD [])
            ((rawTimestamp proto.headers).getD 0) (mk ()))) ∧
      (proto.path.getD "" = "" →
        convert_received_message proto mk = .error .MissingPath) ∧
      (proto.path.getD "" ≠ "/api/v1/queue/empty" →
        proto.path.getD "" ≠ "/api/v1/message" →
        proto.path.getD "" ≠ "" →
        convert_received_message proto mk =
          .error (.UnrecognizedPath (proto.path.getD "")))) := by
  constructor
  · intro h
    simp [convert_received_message, h]
  · intro h
    refine ⟨fun hp => ?_, fun hp => ?_, fun hp => ?_, fun h1 h2 h3 => ?_⟩
    · simp [convert_received_message, h, hp]
    · simp [convert_received_message, h, hp]
    · simp [convert_received_message, h, hp]
    · simp [convert_received_message, h, h1, h2, h3]

/-- Concrete instances of the routing theorem: a `GET` frame, a `PUT` to the
queue-empty path, and a `PUT` to an unknown path. -/
theorem convert_routes_exhaustively_witness :
    convert_received_message (A := Unit)
      ⟨some "GET", some "/api/v1/message", none, [], none⟩ (fun _ => ()) =
      .error (.UnexpectedVerb "GET") ∧
    convert_received_message (A := Unit)
      ⟨some "PUT", some "/api/v1/queue/empty", none, [], none⟩ (fun _ => ()) =
      .ok .QueueEmpty ∧
    convert_received_message (A := Unit)
      ⟨some "PUT", some "/unknown", none, [], none⟩ (fun _ => ()) =
      .error (.UnrecognizedPath "/unknown") :=
  ⟨(convert_routes_exhaustively
      ⟨some "GET", some "/api/v1/message", none, [], none⟩ _).1 (by decide),
   ((convert_routes_exhaustively
      ⟨some "PUT", some "/api/v1/queue/empty", none, [], none⟩ _).2 rfl).1 rfl,
   ((convert_routes_exhaustively
      ⟨some "PUT", some "/unknown", none, [], none⟩ _).2 rfl).2.2.2
     (by decide) (by decide) (by decide)⟩

/-- Claim C10: the verb check precedes all path inspection: an absent verb is
treated as the empty string and yields `UnexpectedVerb("")`; every non-`PUT`
frame yields `UnexpectedVerb` whatever the path; and `MissingPath` or
`UnrecognizedPath` can only be produced by `PUT` frames. -/
theorem verb_check_precedes_path {A : Type} (mk : Unit → A) :
    (∀ path body headers id,
      convert_received_message (A := A) ⟨none, path, body, headers, id⟩ mk =
        .error (.UnexpectedVerb "")) ∧
    (∀ proto : RequestProto, proto.verb.getD "" ≠ "PUT" →
      convert_received_message proto mk =
        .error (.UnexpectedVerb (proto.verb.getD ""))) ∧
    (∀ proto : RequestProto,
      (convert_received_message proto mk = .error .MissingPath ∨
       ∃ p, convert_received_message proto mk = .error (.UnrecognizedPath p)) →
      proto.verb = some "PUT") := by
  refine ⟨fun path body headers id => ?_, fun proto h => ?_, fun proto h => ?_⟩
  · simp [convert_received_message]
  · simp [convert_received_message, h]
  · by_cases hv : proto.verb.getD "" = "PUT"
    · cases hveq : proto.verb with
      | none => rw [hveq] at hv; simp at hv
      | some v =>
        rw [hveq] at hv
        simp only [Option.getD_some] at hv
        rw [hv]
    · exfalso
      have heq : convert_received_message proto mk =
          .error (.UnexpectedVerb (proto.verb.getD "")) := by
        simp [convert_received_message, hv]
      rcases h with h | ⟨p, h⟩ <;> rw [heq] at h <;> simp at h

/-- Concrete instances of the verb-precedence theorem: an absent verb with an
unrecognized path, and a `DELETE` frame with an absent path. -/
theorem verb_check_precedes_path_witness :
    convert_received_message (A := Unit)
      ⟨none, some "/unknown", none, [], none⟩ (fun _ => ()) =
      .error (.UnexpectedVerb "") ∧
    convert_received_message (A := Unit)
      ⟨some "DELETE", none, none, [], none⟩ (fun _ => ()) =
      .error (.UnexpectedVerb "DELETE") :=
  ⟨(verb_check_precedes_path _).1 _ _ _ _,
   (verb_check_precedes_path _).2.1 _ (by decide)⟩

/-- Claim C2, counterexample: on a `PUT /api/v1/message` frame with headers
`["x-signal-timestamp: 5", "x-signal-timestamp: junk"]`, the last header whose
name matches the timestamp header name is the unparseable one, so the claim's
selection rule ("take the last matching header, parse its value, default 0 if
unparseable") yields 0 — but the code skips unparseable matches and delivers
timestamp 5. -/
theorem convert_timestamp_spec_counterexample :
    convert_received_message (A := Unit)
      ⟨some "PUT", some "/api/v1/message", none,
        ["x-signal-timestamp: 5", "x-signal-timestamp: junk"], none⟩
      (fun _ => ()) =
      .ok (.IncomingMessage 0 [] 5 ()) ∧
    specLastMatchingTimestamp
      ["x-signal-timestamp: 5", "x-signal-timestamp: junk"] = 0 ∧
    (5 : Nat) ≠ 0 :=
  ⟨rfl, rfl, by decide⟩

/-- Claim C2, amended: for every `PUT` frame to `/api/v1/message`, the
delivered `server_delivery_timestamp` is the value of the last header whose
name (before the first colon) matches the timestamp header name
case-insensitively AND whose trimmed value parses as an unsigned 64-bit
decimal; matching headers with unparseable values are skipped. If no header
both matches and parses, the timestamp defaults to 0 and a warning is logged.
When several such headers are present the last one wins. -/
theorem convert_timestamp_last_parseable {A : Type} (proto : RequestProto)
    (mk : Unit → A)
    (hverb : proto.verb.getD "" = "PUT")
    (hpath : proto.path.getD "" = "/api/v1/message") :
    convert_received_message proto mk =
      .ok (.IncomingMessage (proto.id.getD 0) (proto.body.getD [])
        (lastMatchingParseableTimestamp proto.headers) (mk ())) ∧
    (convert_warns proto = true ↔
      proto.headers.reverse.findSome? timestampFromHeader = none) := by
  constructor
  · have : lastMatchingParseableTimestamp proto.headers =
        (rawTimestamp proto.headers).getD 0 := by
      rw [lastMatchingParseableTimestamp, rawTimestamp_eq_reverse_findSome?]
    rw [this]
    simp [convert_received_message, hverb, hpath]
  · rw [convert_warns, ← rawTimestamp_eq_reverse_findSome?, hverb, hpath]
    simp [Option.isNone_iff_eq_none]

/-- Concrete instance of the amended timestamp theorem: the frame of the
counterexample, where the last matching-and-parseable header carries 5. -/
theorem convert_timestamp_last_parseable_witness :
    convert_received_message (A := Unit)
      ⟨some "PUT", some "/api/v1/message", none,
        ["x-signal-timestamp: 5", "x-signal-timestamp: junk"], none⟩
      (fun _ => ()) =
      .ok (.IncomingMessage 0 []
        (lastMatchingParseableTimestamp
          ["x-signal-timestamp: 5", "x-signal-timestamp: junk"]) ()) ∧
    (convert_warns
      ⟨some "PUT", some "/api/v1/message", none,
        ["x-signal-timestamp: 5", "x-signal-timestamp: junk"], none⟩ = true ↔
      (["x-signal-timestamp: 5", "x-signal-timestamp: junk"] :
          List String).reverse.findSome? timestampFromHeader = none) :=
  convert_timestamp_last_parseable
    ⟨some "PUT", some "/api/v1/message", none,
      ["x-signal-timestamp: 5", "x-signal-timestamp: junk"], none⟩
    (fun _ => ()) rfl rfl

/-- Claim C3: decoding a non-2xx registration response proceeds in strict
order: 429 with parseable retry-after headers yields `RetryLater` with the
parsed delay; 429 without yields `UnrecognizedStatus`, not `RetryLater`; 422
yields `InvalidRequest` regardless of the body; any other non-2xx status
yields `UnrecognizedStatus` with the headers and body preserved unchanged. -/
theorem try_into_response_non_success {R : Type}
    (extract_retry_later : HeaderMap → Option Nat)
    (parse_json : Bytes → Except JsonErrorCategory R)
    (resp : ChatResponse) (h : ¬ isSuccessStatus resp.status) :
    (∀ delay, resp.status = 429 →
      extract_retry_later resp.headers = some delay →
      try_into_response extract_retry_later parse_json resp =
        .error (.RetryLater delay)) ∧
    (resp.status = 429 → extract_retry_later resp.headers = none →
      try_into_response extract_retry_later parse_json resp =
        .error (.UnrecognizedStatus resp.status resp.headers resp.body)) ∧
    (resp.status = 422 →
      try_into_response extract_retry_later parse_json resp =
        .error .InvalidRequest) ∧
    (resp.status ≠ 429 → resp.status ≠ 422 →
      try_into_response extract_retry_later parse_json resp =
        .error (.UnrecognizedStatus resp.status resp.headers resp.body)) := by
  refine ⟨fun delay hs hx => ?_, fun hs hx => ?_, fun hs => ?_,
    fun h1 h2 => ?_⟩
  · simp [try_into_response, hs, hx, isSuccessStatus]
  · simp [try_into_response, hs, hx, isSuccessStatus]
  · simp [try_into_response, hs, isSuccessStatus]
  · simp [try_into_response, h, h1, h2]

/-- Concrete instances of the non-2xx decoding theorem: a 429 with a
parseable retry-after, a 429 without one, a 422, and a plain 500. -/
theorem try_into_response_non_success_witness :
    try_into_response (R := Unit) (fun _ => some 17) (fun _ => .error .Eof)
      ⟨429, none, none, ⟨[]⟩⟩ = .error (.RetryLater 17) ∧
    try_into_response (R := Unit) (fun _ => none) (fun _ => .error .Eof)
      ⟨429, none, none, ⟨[]⟩⟩ = .error (.UnrecognizedStatus 429 ⟨[]⟩ none) ∧
    try_into_response (R := Unit) (fun _ => none) (fun _ => .error .Eof)
      ⟨422, none, some [123], ⟨[]⟩⟩ = .error .InvalidRequest ∧
    try_into_response (R := Unit) (fun _ => none) (fun _ => .error .Eof)
      ⟨500, none, some [1, 2], ⟨[("server", "x")]⟩⟩ =
      .error (.UnrecognizedStatus 500 ⟨[("server", "x")]⟩ (some [1, 2])) :=
  ⟨(try_into_response_non_success _ _ ⟨429, none, none, ⟨[]⟩⟩
      (by decide)).1 17 rfl rfl,
   (try_into_response_non_success _ _ ⟨429, none, none, ⟨[]⟩⟩
      (by decide)).2.1 rfl rfl,
   (try_into_response_non_success _ _ ⟨422, none, some [123], ⟨[]⟩⟩
      (by decide)).2.2.1 rfl,
   (try_into_response_non_success _ _ ⟨500, none, some [1, 2], ⟨[("server", "x")]⟩⟩
      (by decide)).2.2.2 (by decide) (by decide)⟩

/-- Claim C4: decoding a 2xx registration response checks the content-type
header first — anything other than the exact literal `application/json`
yields `UnexpectedContentType` with the actual value, regardless of the body;
then an absent body yields `MissingBody`; then a JSON parse failing with a
syntax, IO, or EOF error yields `InvalidJson`, a schema mismatch yields
`UnexpectedData`, and success yields the decoded value. -/
theorem try_into_response_success_path {R : Type}
    (extract_retry_later : HeaderMap → Option Nat)
    (parse_json : Bytes → Except JsonErrorCategory R)
    (resp : ChatResponse) (h : isSuccessStatus resp.status) :
    (resp.headers.get "content-type" ≠ some "application/json" →
      try_into_response extract_retry_later parse_json resp =
        .error (.UnexpectedContentType (resp.headers.get "content-type"))) ∧
    (resp.headers.get "content-type" = some "application/json" →
      (resp.body = none →
        try_into_response extract_retry_later parse_json resp =
          .error .MissingBody) ∧
      (∀ b, resp.body = some b →
        (∀ v, parse_json b = .ok v →
          try_into_response extract_retry_later parse_json resp = .ok v) ∧
        (parse_json b = .error .Data →
          try_into_response extract_retry_later parse_json resp =
            .error .UnexpectedData) ∧
        (parse_json b = .error .Syntax ∨ parse_json b = .error .Io ∨
            parse_json b = .error .Eof →
          try_into_response extract_retry_later parse_json resp =
            .error .InvalidJson))) := by
  constructor
  · intro hct
    simp [try_into_response, h, hct]
  · intro hct
    refine ⟨fun hb => ?_, fun b hb => ⟨fun v hp => ?_, fun hp => ?_, fun hp => ?_⟩⟩
    · simp [try_into_response, h, hct, hb]
    · simp [try_into_response, h, hct, hb, hp]
    · simp [try_into_response, h, hct, hb, hp]
    · rcases hp with hp | hp | hp <;> simp [try_into_response, h, hct, hb, hp]

/-- Concrete instances of the 2xx decoding theorem: wrong content-type with a
valid body, JSON content-type with no body, and JSON content-type with an
EOF-failing body. -/
theorem try_into_response_success_path_witness :
    try_into_response (R := Unit) (fun _ => none) (fun _ => .ok ())
      ⟨200, none, some [123, 125], ⟨[("content-type", "text/plain")]⟩⟩ =
      .error (.UnexpectedContentType (some "text/plain")) ∧
    try_into_response (R := Unit) (fun _ => none) (fun _ => .ok ())
      ⟨200, none, none, ⟨[("content-type", "application/json")]⟩⟩ =
      .error .MissingBody ∧
    try_into_response (R := Unit) (fun _ => none) (fun _ => .error .Eof)
      ⟨204, none, some [], ⟨[("content-type", "application/json")]⟩⟩ =
      .error .InvalidJson :=
  ⟨(try_into_response_success_path _ _
      ⟨200, none, some [123, 125], ⟨[("content-type", "text/plain")]⟩⟩
      (by decide)).1 (by decide),
   ((try_into_response_success_path _ _
      ⟨200, none, none, ⟨[("content-type", "application/json")]⟩⟩
      (by decide)).2 (by decide)).1 rfl,
   (((try_into_response_success_path _ _
      ⟨204, none, some [], ⟨[("content-type", "application/json")]⟩⟩
      (by decide)).2 (by decide)).2 [] rfl).2.2 (Or.inr (Or.inr rfl))⟩

/-- Claim C5: for every registration operation converted to a wire request,
the `content-type: application/json` header is present exactly when the
operation has a JSON body, the operation's own headers are all included, and
the method and body are the operation's; in particular `GetSession` with
session id `"aaabbbcccdddeee"` produces
`GET /v1/verification/session/aaabbbcccdddeee` with no headers and no body. -/
theorem registration_operation_to_chat_request (session_id : String)
    (op : RegistrationOperation) :
    (CONTENT_TYPE_JSON ∈
        (registrationRequestToChatRequest session_id op.impl).headers ↔
      op.impl.to_json_body.isSome = true) ∧
    (∀ hd, hd ∈ op.impl.headers →
      hd ∈ (registrationRequestToChatRequest session_id op.impl).headers) ∧
    (registrationRequestToChatRequest session_id op.impl).method =
      op.impl.METHOD ∧
    (registrationRequestToChatRequest session_id op.impl).body =
      op.impl.to_json_body ∧
    registrationRequestToChatRequest "aaabbbcccdddeee" GetSession.requestImpl =
      ⟨"GET", "/v1/verification/session/aaabbbcccdddeee", [], none⟩ := by
  refine ⟨?_, fun hd hmem => ?_, rfl, rfl, rfl⟩
  · cases op with
    | getSession =>
      simp [registrationRequestToChatRequest, RegistrationOperation.impl,
        GetSession.requestImpl]
    | updateSession u =>
      simp [registrationRequestToChatRequest, RegistrationOperation.impl,
        UpdateRegistrationSession.requestImpl]
    | requestCode r =>
      simp [registrationRequestToChatRequest, RegistrationOperation.impl,
        RequestVerificationCode.requestImpl]
    | submitCode s =>
      simp [registrationRequestToChatRequest, RegistrationOperation.impl,
        SubmitVerificationCode.requestImpl]
  · simp only [registrationRequestToChatRequest]
    exact List.mem_append_left _ hmem

/-- Concrete instances of the conversion theorem: the `GetSession` scenario
and inclusion of the `accept-language` header of a verification-code
request. -/
theorem registration_operation_to_chat_request_witness :
    registrationRequestToChatRequest "aaabbbcccdddeee" GetSession.requestImpl =
      ⟨"GET", "/v1/verification/session/aaabbbcccdddeee", [], none⟩ ∧
    ("accept-language", "tlh") ∈
      (registrationRequestToChatRequest "aaabbbcccdddeee"
        (RegistrationOperation.requestCode ⟨.sms, "client name", some "tlh"⟩).impl).headers :=
  ⟨(registration_operation_to_chat_request "aaabbbcccdddeee"
      .getSession).2.2.2.2,
   (registration_operation_to_chat_request "aaabbbcccdddeee"
      (.requestCode ⟨.sms, "client name", some "tlh"⟩)).2.1
     ("accept-language", "tlh") (by simp [RegistrationOperation.impl,
       RequestVerificationCode.requestImpl])⟩

/-- Claim C6: the root JSON object of every `RegisterAccount` body contains
exactly one of the keys `sessionId` and `recoveryPassword`: `sessionId` with
the given session id when one is supplied, otherwise `recoveryPassword` with
the base64-padded recovery password from the account attributes. -/
theorem register_account_exactly_one_session_key (number : String)
    (session_id : Option String) (mn : NewMessageNotification)
    (attrs : ProvidedAccountAttributes) (dt : Bool)
    (keys : ForServiceIds AccountKeys) (pw : String) :
    ((register_account number session_id mn attrs dt keys pw).bodyField
        "sessionId",
     (register_account number session_id mn attrs dt keys pw).bodyField
        "recoveryPassword") =
      match session_id with
      | some sid => (some (.str sid), none)
      | none => (none, some (.str (base64Padded attrs.recovery_password))) := by
  cases session_id <;> cases mn <;>
    simp [register_account, ChatRequest.bodyField, Json.lookup,
      SessionValidation.toJsonField, optField]

/-- Claim C7: in every `RegisterAccount` body, when the message notification
is `WillFetchMessages` the synthesized `fetchesMessages` flag inside
`accountAttributes` is `true` and the root `pushToken` key is omitted;
otherwise `fetchesMessages` is `false` and `pushToken` holds exactly one of
`apnRegistrationId` or `gcmRegistrationId`, matching the notification kind. -/
theorem register_account_push_token (number : String)
    (session_id : Option String) (mn : NewMessageNotification)
    (attrs : ProvidedAccountAttributes) (dt : Bool)
    (keys : ForServiceIds AccountKeys) (pw : String) :
    ((register_account number session_id mn attrs dt keys pw).bodyField
        "pushToken",
     (register_account number session_id mn attrs dt keys pw).accountAttributesField
        "fetchesMessages") =
      match mn with
      | .WillFetchMessages => (none, some (.bool true))
      | .Apn tok => (some (.obj [("apnRegistrationId", .str tok)]),
          some (.bool false))
      | .Gcm tok => (some (.obj [("gcmRegistrationId", .str tok)]),
          some (.bool false)) := by
  cases session_id <;> cases mn <;>
    simp [register_account, ChatRequest.bodyField,
      ChatRequest.accountAttributesField, Json.lookup,
      SessionValidation.toJsonField, optField]

/-- Claim C8: `take` on an acknowledgement handle succeeds at most once: the
first call returns the stored send-response closure, and every subsequent
call on the same (threaded) handle returns nothing. -/
theorem server_message_ack_take_at_most_once {S : Type} (closure : S) :
    (ServerMessageAck.new closure).nthTake 0 = some closure ∧
    ∀ n, 1 ≤ n → (ServerMessageAck.new closure).nthTake n = none := by
  refine ⟨rfl, fun n hn => ?_⟩
  match n, hn with
  | n + 1, _ => exact nthTake_of_empty n

/-- Concrete instance of the at-most-once theorem: the first `take` yields
the stored closure, the fourth yields nothing. -/
theorem server_message_ack_take_at_most_once_witness :
    (ServerMessageAck.new 42).nthTake 0 = some 42 ∧
    (ServerMessageAck.new 42).nthTake 3 = none :=
  ⟨(server_message_ack_take_at_most_once 42).1,
   (server_message_ack_take_at_most_once 42).2 3 (by decide)⟩

/-- Claim C9: attaching a listener twice and sending before attaching a
listener are fatal programming errors: `init_listener` on a `Running` gate
panics and leaves the gate `Running` with the same connection (never the
`TemporarilyEvicted` placeholder), and the gate check of `send` panics
whenever the gate is not `Running`. -/
theorem gate_fatal_errors {R C P L : Type} (finish_connect : R → P → L → C) :
    (∀ (c : C) (l : L),
      init_listener finish_connect (.Running c) l =
        (.Running c, some "listener already set")) ∧
    (∀ conn : MaybeChatConnection R C P, conn.isRunning = false →
      send_gate conn = .error "listener was not set") := by
  refine ⟨fun c l => rfl, fun conn h => ?_⟩
  cases conn with
  | Running c => simp [MaybeChatConnection.isRunning] at h
  | WaitingForListener r p => rfl
  | TemporarilyEvicted => rfl

/-- Concrete instance of the fatal-error theorem: a running gate holding `7`
survives the panicking `init_listener` call, and `send` on a pending gate
panics. -/
theorem gate_fatal_errors_witness :
    init_listener (fun (_ : Unit) (_ : Unit) (_ : Unit) => (0 : Nat))
      (.Running 7) () = (.Running 7, some "listener already set") ∧
    send_gate (R := Unit) (C := Nat) (P := Unit) (.WaitingForListener () ()) =
      .error "listener was not set" :=
  ⟨(gate_fatal_errors (fun _ _ _ => 0)).1 7 (),
   (gate_fatal_errors (fun (_ : Unit) (_ : Unit) (_ : Unit) => (0 : Nat))).2
     (.WaitingForListener () ()) rfl⟩
